import Mathlib

/-!
Verification of the streaming usage-telemetry engine
(`backend/app/core/sliding_window.py`, `metrics.py`, `anomalies.py`,
glued by `backend/app/main.py`).

Modelling conventions of the shallow embedding:
* Python `datetime` instants are rational numbers of seconds; `timedelta(minutes=2)`
  is the rational `60 * WINDOW_MINUTES`.
* Python numbers (`int`, the float results of numpy) are `Int` / `ℚ`; numpy
  mean, population standard deviation and linear-interpolation percentiles are
  written out over `ℚ`.  `np.std` is the square root of `listVar`; to keep the
  detector executable the spike test is phrased with squares
  (see `LatencySpike` and the proved equivalence with the
  `mean + 3 * sqrt variance` formulation over `ℝ`).
* Exceptions become `Except PyError`: `ValueError` / `RuntimeError` keep their
  message, `TypeError` models the failure of an order comparison against `None`.
* A record object whose attribute may be absent (the `AttributeError` paths
  guarded by the aggregator and the detector) is a structure of `Option` fields;
  a `none` field is a structurally malformed event.
* The one impure input, `datetime.now(timezone.utc)`, is passed explicitly as
  the `now` argument of the store operations.
* An "unexpected, non-structural failure" inside the detector's `try` block
  (a numpy or runtime fault) is injected through an explicit `fault` argument:
  `some 0` makes the statistics region fail after the latency attributes were
  read, `some 1` makes the error-rate region fail after the latency check
  completed; `none` (and any other index) is a fault-free run.
-/

/-- Python exception values raised by the embedded modules. -/
inductive PyError where
  | valueError (msg : String)
  | runtimeError (msg : String)
  | typeError
deriving DecidableEq

instance {ε α : Type} [DecidableEq ε] [DecidableEq α] : DecidableEq (Except ε α) := fun x y =>
  match x, y with
  | .ok a, .ok b => if h : a = b then .isTrue (by rw [h]) else .isFalse (by simp [h])
  | .error a, .error b => if h : a = b then .isTrue (by rw [h]) else .isFalse (by simp [h])
  | .ok _, .error _ => .isFalse (by simp)
  | .error _, .ok _ => .isFalse (by simp)

/-- Test for the `RuntimeError` constructor; `main.py` maps a `ValueError` to a
400 client/validation response and any other exception to a 500 internal
response, so this distinguishes the "internal failure" class. -/
def isRuntimeError {α : Type} : Except PyError α → Bool
  | .error (.runtimeError _) => true
  | _ => false

/-- Embedding of a `LogEvent` record (`models.py`).  Every field is `Option`al
because the aggregator and the detector defend against records that are missing
an attribute (their `AttributeError` handlers); a `none` field models a missing
attribute, and `add` models the explicit `is None` test on `timestamp`. -/
structure LogEvent where
  timestamp : Option ℚ
  user_id : Option String
  latency_ms : Option Int
  tokens_used : Option Int
  is_error : Option Bool
deriving DecidableEq

/-- Timestamp of an event, defaulting to `0`; used only to state ordering
hypotheses about events whose timestamp is known to be present. -/
def tsv (e : LogEvent) : ℚ := e.timestamp.getD 0

namespace SlidingWindow

/-- Constant `WINDOW_MINUTES = 2` of `sliding_window.py`. -/
def WINDOW_MINUTES : ℚ := 2

/-- Cutoff instant `datetime.now(timezone.utc) - timedelta(minutes=WINDOW_MINUTES)`
computed by `_evict_old_events`, in seconds. -/
def cutoff (now : ℚ) : ℚ := now - 60 * WINDOW_MINUTES

/-- Embedding of `SlidingWindow._evict_old_events`: pop the head while its
timestamp is strictly before the cutoff.  Comparing a `None` timestamp with the
cutoff raises a `TypeError` in Python, modelled by the `typeError` value. -/
def evictOld (now : ℚ) : List LogEvent → Except PyError (List LogEvent)
  | [] => .ok []
  | e :: rest =>
    match e.timestamp with
    | none => .error .typeError
    | some t => if t < cutoff now then evictOld now rest else .ok (e :: rest)

/-- Embedding of `SlidingWindow.add`: reject a `None` timestamp with a
`ValueError` before touching the deque, then append to the tail and run the
eviction sweep; any exception inside the `try` is re-raised as `RuntimeError`.
The returned list is the new deque contents; in the error cases the deque was
either untouched (`ValueError`) or is unobservable to the caller. -/
def add (now : ℚ) (event : LogEvent) (events : List LogEvent) :
    Except PyError (List LogEvent) :=
  if event.timestamp = none then
    .error (.valueError "LogEvent timestamp cannot be None")
  else
    match evictOld now (events ++ [event]) with
    | .ok events2 => .ok events2
    | .error _ => .error (.runtimeError "Sliding window update failed")

/-- Embedding of `SlidingWindow.get_events`: run the eviction sweep, then
return `list(self.events)` — the same list as the new deque contents; any
exception inside the `try` is re-raised as `RuntimeError`. -/
def getEvents (now : ℚ) (events : List LogEvent) : Except PyError (List LogEvent) :=
  match evictOld now events with
  | .ok events2 => .ok events2
  | .error _ => .error (.runtimeError "Failed to retrieve sliding window events")

/-- Run a sequence of `add` calls against a starting deque; each pair gives the
wall-clock instant of the call and the event admitted. -/
def runAddsFrom (events : List LogEvent) :
    List (ℚ × LogEvent) → Except PyError (List LogEvent)
  | [] => .ok events
  | (now, e) :: rest =>
    match add now e events with
    | .ok events2 => runAddsFrom events2 rest
    | .error err => .error err

/-- Run a sequence of `add` calls against the freshly constructed (empty)
window, as `main.py` does from process start. -/
def runAdds (adds : List (ℚ × LogEvent)) : Except PyError (List LogEvent) :=
  runAddsFrom [] adds

end SlidingWindow

/-- Constant `TOKEN_COST_PER_1K = 0.002` of `metrics.py`. -/
def TOKEN_COST_PER_1K : ℚ := 2 / 1000

/-- Result dictionary of `compute_metrics` (field names as in the source). -/
structure Metrics where
  requests_per_min : Int
  avg_latency : ℚ
  p50_latency : ℚ
  p95_latency : ℚ
  p99_latency : ℚ
  error_rate : ℚ
  tokens_per_min : Int
  estimated_cost_usd : ℚ
  per_user_requests : String → Nat

/-- Arithmetic mean of an integer list, as `np.mean` over `ℚ`. -/
def listMean (ls : List Int) : ℚ := ((ls.sum : Int) : ℚ) / (ls.length : ℚ)

/-- Population variance of an integer list; `np.std` is its square root. -/
def listVar (ls : List Int) : ℚ :=
  (ls.map (fun x => ((x : ℚ) - listMean ls) ^ 2)).sum / (ls.length : ℚ)

/-- Maximum of an integer list (`np.max`); `0` for the empty list, which the
code never queries. -/
def listMax : List Int → Int
  | [] => 0
  | x :: xs => xs.foldl max x

/-- Linear-interpolation percentile, the default of `np.percentile`: with the
sample sorted ascending, the rank `p / 100 * (n - 1)` is split into integer and
fractional part and the two neighbouring order statistics are interpolated. -/
def percentile (p : ℚ) (ls : List Int) : ℚ :=
  let s := List.insertionSort (fun a b => a ≤ b) ls
  let rank : ℚ := p / 100 * ((s.length : ℚ) - 1)
  let i : Nat := (⌊rank⌋).toNat
  let lo : ℚ := ((s.getD i 0 : Int) : ℚ)
  let hi : ℚ := ((s.getD (i + 1) (s.getD i 0) : Int) : ℚ)
  lo + (rank - (i : ℚ)) * (hi - lo)

/-- Evaluation of a Python list comprehension over attribute accesses: `none`
as soon as one element's attribute is missing (`AttributeError`), otherwise the
list of attribute values in order. -/
def optionMapAll {α β : Type} (f : α → Option β) : List α → Option (List β)
  | [] => some []
  | a :: l =>
    match f a, optionMapAll f l with
    | some b, some bs => some (b :: bs)
    | _, _ => none

/-- Embedding of `compute_metrics`.  The `.ok none` result is the empty
dictionary `{}` returned for an empty event list; `.ok (some m)` is the full
metrics dictionary.  A missing attribute in any of the four comprehensions
(`latency_ms`, `is_error`, `tokens_used`, `user_id`) raises `AttributeError`,
caught and re-raised as `ValueError("Invalid log event structure")`. -/
def computeMetrics (events : List LogEvent) (window_minutes : Int) :
    Except PyError (Option Metrics) :=
  if events = [] then .ok none
  else if window_minutes ≤ 0 then
    .error (.valueError "window_minutes must be a positive integer")
  else
    match optionMapAll (fun e => e.latency_ms) events, optionMapAll (fun e => e.is_error) events,
          optionMapAll (fun e => e.tokens_used) events, optionMapAll (fun e => e.user_id) events with
    | some latencies_ms, some errs, some toks, some users =>
      .ok (some
        ⟨Int.fdiv (events.length : Int) window_minutes,
         listMean latencies_ms,
         percentile 50 latencies_ms,
         percentile 95 latencies_ms,
         percentile 99 latencies_ms,
         ((errs.countP id : Nat) : ℚ) / (events.length : ℚ),
         Int.fdiv toks.sum window_minutes,
         ((toks.sum : Int) : ℚ) / 1000 * TOKEN_COST_PER_1K,
         fun u => users.count u⟩)
    | _, _, _, _ => .error (.valueError "Invalid log event structure")

/-- Projection used to state facts about a successful, non-empty
`compute_metrics` result. -/
def metricsOf (r : Except PyError (Option Metrics)) : Option Metrics :=
  match r with
  | .ok (some m) => some m
  | _ => none

/-- Constant `MIN_EVENTS_FOR_ANALYSIS = 5` of `anomalies.py`. -/
def MIN_EVENTS_FOR_ANALYSIS : Nat := 5

/-- Constant `LATENCY_STD_MULTIPLIER = 3` of `anomalies.py`. -/
def LATENCY_STD_MULTIPLIER : ℚ := 3

/-- Constant `MAX_ERROR_RATE = 0.10` of `anomalies.py`. -/
def MAX_ERROR_RATE : ℚ := 10 / 100

/-- Message appended by the latency-spike check. -/
def latencySpikeMsg : String := "CRITICAL: Latency spike detected"

/-- Message appended by the error-rate check. -/
def highErrorRateMsg : String := "WARNING: High error rate detected"

/-- Message appended by the degraded path of the detector. -/
def detectionFailedMsg : String := "ERROR: Anomaly detection failed"

/-- Test `latencies.max() > mean_latency + LATENCY_STD_MULTIPLIER * std_latency`
of `anomalies.py`, phrased without the square root: since the maximum is never
below the mean, the comparison is equivalent to comparing the squares (proved
as part of the C2 theorem against the `Real.sqrt` formulation). -/
def LatencySpike (ls : List Int) : Prop :=
  ((listMax ls : ℚ) - listMean ls) ^ 2 > LATENCY_STD_MULTIPLIER ^ 2 * listVar ls

instance (ls : List Int) : Decidable (LatencySpike ls) := by
  unfold LatencySpike
  infer_instance

/-- Embedding of `detect_anomalies`.  The `metrics` dictionary argument is
abstracted to its only queried entry, `metrics.get("error_rate", 0.0)`, with
`none` modelling an absent key.  The `fault` argument injects an unexpected
non-`AttributeError` exception as described in the module docstring: the
handler appends `detectionFailedMsg` to the anomalies already determined and
the function returns normally, whereas a missing `latency_ms` attribute raises
`AttributeError`, re-raised as `ValueError("Invalid log event structure")`. -/
def detectAnomalies (events : List LogEvent) (metrics_error_rate : Option ℚ)
    (fault : Option Nat) : Except PyError (List String) :=
  if events.length < MIN_EVENTS_FOR_ANALYSIS then .ok []
  else
    match optionMapAll (fun e => e.latency_ms) events with
    | none => .error (.valueError "Invalid log event structure")
    | some latencies =>
      if fault = some 0 then .ok [detectionFailedMsg]
      else
        let anomalies := if LatencySpike latencies then [latencySpikeMsg] else []
        if fault = some 1 then .ok (anomalies ++ [detectionFailedMsg])
        else
          let error_rate := metrics_error_rate.getD 0
          .ok (anomalies ++ if error_rate > MAX_ERROR_RATE then [highErrorRateMsg] else [])

/-- Sample well-formed event used by concrete witnesses. -/
def sampleEvent (ts : ℚ) (lat : Int) (err : Bool) : LogEvent :=
  ⟨some ts, some "u", some lat, some 7, some err⟩

/-- Concrete event whose timestamp attribute is `None`. -/
def noTimestampEvent : LogEvent := ⟨none, some "u", some 5, some 1, some false⟩

/-- Concrete event missing every attribute except the timestamp. -/
def malformedEvent : LogEvent := ⟨some 0, none, none, none, none⟩

namespace SlidingWindow

lemma evictOld_cons (now : ℚ) (e : LogEvent) (rest : List LogEvent) :
    evictOld now (e :: rest) =
      match e.timestamp with
      | none => .error .typeError
      | some t => if t < cutoff now then evictOld now rest else .ok (e :: rest) := rfl

lemma evictOld_suffix {now : ℚ} :
    ∀ {st l : List LogEvent}, evictOld now st = .ok l → l.IsSuffix st := by
  intro st
  induction st with
  | nil =>
    intro l h
    simp only [evictOld, Except.ok.injEq] at h
    simp [← h]
  | cons e rest ih =>
    intro l h
    rw [evictOld_cons] at h
    split at h
    · simp at h
    · split at h
      · exact (ih h).trans (List.suffix_cons e rest)
      · simp only [Except.ok.injEq] at h
        exact h ▸ List.suffix_refl _

lemma evictOld_fixpoint {now : ℚ} :
    ∀ {st l : List LogEvent}, evictOld now st = .ok l → evictOld now l = .ok l := by
  intro st
  induction st with
  | nil =>
    intro l h
    simp only [evictOld, Except.ok.injEq] at h
    simp [← h, evictOld]
  | cons e rest ih =>
    intro l h
    rw [evictOld_cons] at h
    split at h
    · simp at h
    · rename_i t hts
      split at h
      · exact ih h
      · rename_i hlt
        simp only [Except.ok.injEq] at h
        rw [← h, evictOld_cons, hts]
        simp [hlt]

lemma evictOld_fresh {now : ℚ} :
    ∀ {st l : List LogEvent}, List.Pairwise (fun a b => tsv a ≤ tsv b) st →
      evictOld now st = .ok l →
      ∀ e ∈ l, ∀ t, e.timestamp = some t → cutoff now ≤ t := by
  intro st
  induction st with
  | nil =>
    intro l _ h
    simp only [evictOld, Except.ok.injEq] at h
    simp [← h]
  | cons e rest ih =>
    intro l hp h
    rw [evictOld_cons] at h
    split at h
    · simp at h
    · rename_i t0 hts
      split at h
      · exact ih hp.tail h
      · rename_i hlt
        simp only [Except.ok.injEq] at h
        subst h
        intro x hx t hxt
        rcases List.mem_cons.mp hx with hx | hx
        · subst hx
          rw [hts] at hxt
          cases hxt
          exact le_of_not_lt hlt
        · have h1 : tsv e ≤ tsv x := (List.pairwise_cons.mp hp).1 x hx
          have h2 : tsv e = t0 := by simp [tsv, hts]
          have h3 : tsv x = t := by simp [tsv, hxt]
          rw [h2, h3] at h1
          exact le_trans (le_of_not_lt hlt) h1

lemma add_ok_suffix {now : ℚ} {ev : LogEvent} {st st2 : List LogEvent}
    (h : add now ev st = .ok st2) : st2.IsSuffix (st ++ [ev]) := by
  unfold add at h
  by_cases hts : ev.timestamp = none
  · rw [if_pos hts] at h
    simp at h
  · rw [if_neg hts] at h
    cases hev : evictOld now (st ++ [ev]) with
    | ok l =>
      rw [hev] at h
      simp only [Except.ok.injEq] at h
      exact h ▸ evictOld_suffix hev
    | error err => rw [hev] at h; simp at h

lemma runAddsFrom_sublist :
    ∀ {adds : List (ℚ × LogEvent)} {st st2 : List LogEvent},
      runAddsFrom st adds = .ok st2 → st2.Sublist (st ++ adds.map Prod.snd) := by
  intro adds
  induction adds with
  | nil =>
    intro st st2 h
    simp only [runAddsFrom, Except.ok.injEq] at h
    simp [← h]
  | cons p rest ih =>
    intro st st2 h
    obtain ⟨now, e⟩ := p
    unfold runAddsFrom at h
    cases ha : add now e st with
    | error err => rw [ha] at h; simp at h
    | ok stm =>
      rw [ha] at h
      have h1 : st2.Sublist (stm ++ rest.map Prod.snd) := ih h
      have h2 : stm.Sublist (st ++ [e]) := (add_ok_suffix ha).sublist
      have h3 : (stm ++ rest.map Prod.snd).Sublist ((st ++ [e]) ++ rest.map Prod.snd) :=
        h2.append_right (rest.map Prod.snd)
      have h4 := h1.trans h3
      simpa [List.append_assoc] using h4

/-- C1: for every sequence of events admitted in non-decreasing timestamp
order, every event whose age (now minus its timestamp) exceeds the retention
duration of 2 minutes at the time of the snapshot is absent from the returned
list — equivalently every returned event has age at most the retention
duration — and the eviction sweep removes only a contiguous prefix of the
window (the returned list is a suffix of the pre-snapshot deque), stopping at
the first head element still within range. -/
theorem snapshot_eviction_correct (adds : List (ℚ × LogEvent)) (now : ℚ)
    (st l : List LogEvent)
    (hsorted : List.Pairwise (fun a b => tsv a.2 ≤ tsv b.2) adds)
    (hrun : runAdds adds = .ok st)
    (hsnap : getEvents now st = .ok l) :
    (∀ e ∈ l, ∀ t, e.timestamp = some t → now - t ≤ 60 * WINDOW_MINUTES) ∧
      l.IsSuffix st := by
  have hsub : st.Sublist (adds.map Prod.snd) := by
    simpa using runAddsFrom_sublist hrun
  have hsorted2 : List.Pairwise (fun a b => tsv a ≤ tsv b) (adds.map Prod.snd) := by
    rw [List.pairwise_map]
    exact hsorted
  have hst : List.Pairwise (fun a b => tsv a ≤ tsv b) st := hsorted2.sublist hsub
  unfold getEvents at hsnap
  cases hev : evictOld now st with
  | error err => rw [hev] at hsnap; simp at hsnap
  | ok l2 =>
    rw [hev] at hsnap
    simp only [Except.ok.injEq] at hsnap
    subst hsnap
    refine ⟨?_, evictOld_suffix hev⟩
    intro e he t ht
    have hc := evictOld_fresh hst hev e he t ht
    unfold cutoff at hc
    linarith

theorem snapshot_eviction_correct_witness :
    (∀ e ∈ [sampleEvent 130 5 false], ∀ t, e.timestamp = some t →
        (130 : ℚ) - t ≤ 60 * WINDOW_MINUTES) ∧
      List.IsSuffix [sampleEvent 130 5 false] [sampleEvent 130 5 false] :=
  snapshot_eviction_correct [(0, sampleEvent 0 5 false), (130, sampleEvent 130 5 false)] 130
    [sampleEvent 130 5 false] [sampleEvent 130 5 false]
    (by with_unfolding_all decide) (by with_unfolding_all decide)
    (by with_unfolding_all decide)

/-- C5: two consecutive calls to the snapshot operation with no intervening
add return identical ordered event lists: the first call returns the evicted
deque contents and leaves exactly that list as the new deque, and a second
call at the same clock reading returns the same list again. -/
theorem snapshot_idempotent (now : ℚ) (st l : List LogEvent)
    (h : getEvents now st = .ok l) : getEvents now l = .ok l := by
  unfold getEvents at h ⊢
  cases hev : evictOld now st with
  | error err => rw [hev] at h; simp at h
  | ok l2 =>
    rw [hev] at h
    simp only [Except.ok.injEq] at h
    subst h
    rw [evictOld_fixpoint hev]

theorem snapshot_idempotent_witness :
    getEvents 130 [sampleEvent 130 5 false] = .ok [sampleEvent 130 5 false] :=
  snapshot_idempotent 130 [sampleEvent 0 5 false, sampleEvent 130 5 false]
    [sampleEvent 130 5 false] (by with_unfolding_all decide)

/-- C8 (counterexample): an event with a `None` timestamp makes `add` fail
with a `ValueError` — the class `main.py` maps to a 400 validation response —
and not with the `RuntimeError` that models `InternalError`. -/
theorem add_null_timestamp_counterexample :
    add 0 noTimestampEvent [] = .error (.valueError "LogEvent timestamp cannot be None") ∧
      isRuntimeError (add 0 noTimestampEvent []) = false := by
  with_unfolding_all decide

/-- C8 (amended): for every event whose timestamp is `None` that reaches the
store, `add` fails with the `ValueError` raised before the deque is touched
(surfaced by the ingest endpoint as a validation failure, not as an internal
failure), and the store is left unchanged — no new deque state is produced. -/
theorem add_null_timestamp_value_error (now : ℚ) (st : List LogEvent) (event : LogEvent)
    (h : event.timestamp = none) :
    add now event st = .error (.valueError "LogEvent timestamp cannot be None") := by
  unfold add
  rw [if_pos h]

theorem add_null_timestamp_value_error_witness :
    add 7 noTimestampEvent [sampleEvent 0 5 false] =
      .error (.valueError "LogEvent timestamp cannot be None") :=
  add_null_timestamp_value_error 7 [sampleEvent 0 5 false] noTimestampEvent rfl

end SlidingWindow

/-- C3 (counterexample): `compute_metrics` with the empty event list and
`window_minutes = 0` returns the empty dictionary, because the empty-list
guard precedes the window guard; it does not fail with `InvalidArgument`. -/
theorem compute_empty_zero_window_counterexample :
    computeMetrics [] 0 = .ok none ∧
      computeMetrics [] 0 ≠ .error (.valueError "window_minutes must be a positive integer") := by
  constructor
  · rfl
  · intro h
    rw [show computeMetrics [] 0 = .ok none from rfl] at h
    exact Except.noConfusion h

/-- C3 (amended): for every non-empty list of events and every
`window_minutes ≤ 0`, `compute_metrics` fails with the `InvalidArgument`-class
`ValueError` and no metric computation is attempted; for the empty list the
empty-dictionary guard fires first and no error is raised. -/
theorem compute_nonpos_window_invalid_argument (events : List LogEvent) (w : Int)
    (hne : events ≠ []) (hw : w ≤ 0) :
    computeMetrics events w =
      .error (.valueError "window_minutes must be a positive integer") := by
  unfold computeMetrics
  rw [if_neg hne, if_pos hw]

theorem compute_nonpos_window_invalid_argument_witness :
    computeMetrics [sampleEvent 0 5 false] 0 =
      .error (.valueError "window_minutes must be a positive integer") :=
  compute_nonpos_window_invalid_argument [sampleEvent 0 5 false] 0
    (by decide) (by decide)

/-- C4: for every list of events with fewer than 5 elements and every metrics
value and fault behaviour, the detector returns the empty list. -/
theorem detect_few_events_empty (events : List LogEvent) (er : Option ℚ) (fault : Option Nat)
    (h : events.length < 5) : detectAnomalies events er fault = .ok [] := by
  have h5 : events.length < MIN_EVENTS_FOR_ANALYSIS := h
  unfold detectAnomalies
  rw [if_pos h5]

theorem detect_few_events_empty_witness :
    detectAnomalies [sampleEvent 0 5 true, sampleEvent 1 9 true] (some 1) none = .ok [] :=
  detect_few_events_empty [sampleEvent 0 5 true, sampleEvent 1 9 true] (some 1) none
    (by decide)

lemma optionMapAll_length {α β : Type} {f : α → Option β} :
    ∀ {l : List α} {l2 : List β}, optionMapAll f l = some l2 → l2.length = l.length := by
  intro l
  induction l with
  | nil =>
    intro l2 h
    simp only [optionMapAll, Option.some.injEq] at h
    simp [← h]
  | cons a l ih =>
    intro l2 h
    unfold optionMapAll at h
    cases hfa : f a with
    | none => rw [hfa] at h; simp at h
    | some bv =>
      cases hml : optionMapAll f l with
      | none => rw [hfa, hml] at h; simp at h
      | some bs =>
        rw [hfa, hml] at h
        simp only [Option.some.injEq] at h
        rw [← h]
        simp [ih hml]

lemma optionMapAll_mem_ne_none {α β : Type} {f : α → Option β} :
    ∀ {l : List α} {l2 : List β}, optionMapAll f l = some l2 → ∀ a ∈ l, f a ≠ none := by
  intro l
  induction l with
  | nil =>
    intro l2 _ a ha
    simp at ha
  | cons a l ih =>
    intro l2 h x hx
    unfold optionMapAll at h
    cases hfa : f a with
    | none => rw [hfa] at h; simp at h
    | some bv =>
      cases hml : optionMapAll f l with
      | none => rw [hfa, hml] at h; simp at h
      | some bs =>
        rcases List.mem_cons.mp hx with hx | hx
        · subst hx
          simp [hfa]
        · exact ih hml x hx

lemma le_foldl_max (a : Int) : ∀ (xs : List Int), a ≤ xs.foldl max a
  | [] => le_refl a
  | x :: xs => le_trans (le_max_left a x) (le_foldl_max (max a x) xs)

lemma mem_le_foldl_max : ∀ (xs : List Int) (a : Int), ∀ x ∈ xs, x ≤ xs.foldl max a := by
  intro xs
  induction xs with
  | nil => simp
  | cons y ys ih =>
    intro a x hx
    rcases List.mem_cons.mp hx with hx | hx
    · subst hx
      exact le_trans (le_max_right a x) (le_foldl_max (max a x) ys)
    · exact ih (max a y) x hx

lemma le_listMax {ls : List Int} : ∀ x ∈ ls, x ≤ listMax ls := by
  cases ls with
  | nil => simp
  | cons y ys =>
    intro x hx
    rcases List.mem_cons.mp hx with hx | hx
    · subst hx
      exact le_foldl_max x ys
    · exact mem_le_foldl_max ys y x hx

lemma mean_le_max (ls : List Int) (h : ls ≠ []) : listMean ls ≤ (listMax ls : ℚ) := by
  have hn : 0 < (ls.length : ℚ) := by
    have := List.length_pos.mpr h
    exact_mod_cast this
  have hsum : ls.sum ≤ ls.length • listMax ls := List.sum_le_card_nsmul ls (listMax ls) le_listMax
  rw [nsmul_eq_mul] at hsum
  have hq : ((ls.sum : Int) : ℚ) ≤ (ls.length : ℚ) * (listMax ls : ℚ) := by exact_mod_cast hsum
  unfold listMean
  rw [div_le_iff₀ hn]
  linarith

lemma listVar_nonneg (ls : List Int) : 0 ≤ listVar ls := by
  unfold listVar
  apply div_nonneg
  · apply List.sum_nonneg
    intro x hx
    simp only [List.mem_map] at hx
    obtain ⟨y, _, rfl⟩ := hx
    positivity
  · positivity

lemma latencySpike_iff_sqrt (ls : List Int) (h : ls ≠ []) :
    LatencySpike ls ↔
      ((listMax ls : ℝ) > ((listMean ls : ℚ) : ℝ) + 3 * Real.sqrt ((listVar ls : ℚ) : ℝ)) := by
  have hv : (0 : ℝ) ≤ ((listVar ls : ℚ) : ℝ) := by exact_mod_cast listVar_nonneg ls
  have hm : ((listMean ls : ℚ) : ℝ) ≤ ((listMax ls : Int) : ℝ) := by
    have h2 := mean_le_max ls h
    have h3 : ((listMean ls : ℚ) : ℝ) ≤ (((listMax ls : Int) : ℚ) : ℝ) := by exact_mod_cast h2
    simpa using h3
  have hs : Real.sqrt ((listVar ls : ℚ) : ℝ) * Real.sqrt ((listVar ls : ℚ) : ℝ) =
      ((listVar ls : ℚ) : ℝ) := Real.mul_self_sqrt hv
  have hsn : 0 ≤ Real.sqrt ((listVar ls : ℚ) : ℝ) := Real.sqrt_nonneg _
  have hq : LatencySpike ls ↔
      (9 * ((listVar ls : ℚ) : ℝ) < (((listMax ls : Int) : ℝ) - ((listMean ls : ℚ) : ℝ)) ^ 2) := by
    unfold LatencySpike LATENCY_STD_MULTIPLIER
    constructor
    · intro hgt
      have : (9 : ℚ) * listVar ls < ((listMax ls : ℚ) - listMean ls) ^ 2 := by nlinarith
      exact_mod_cast this
    · intro hgt
      have : (9 : ℚ) * listVar ls < ((listMax ls : ℚ) - listMean ls) ^ 2 := by
        have h9 : ((9 : ℚ) : ℝ) * (((listVar ls : ℚ)) : ℝ) <
            ((((listMax ls : ℚ) - listMean ls) : ℚ) : ℝ) ^ 2 := by push_cast; push_cast at hgt; linarith
        exact_mod_cast h9
      nlinarith
  rw [hq]
  constructor
  · intro h9
    by_contra hle
    push_neg at hle
    nlinarith
  · intro hgt
    nlinarith

/-- C2: for every list of at least 5 events (whose latency attributes are all
present, extracted as `latencies`) and every metrics value carrying an
`error_rate` entry, the detector emits the CRITICAL latency-spike signal if
and only if the maximum observed latency strictly exceeds
`mean + 3 * standard deviation` of the latencies (standard deviation being the
square root of the population variance), emits the WARNING high-error-rate
signal if and only if `error_rate > 0.10`, and the two checks fire
independently with the latency signal preceding the error-rate signal when
both fire, as the concatenation shape shows. -/
theorem detect_threshold_signals (events : List LogEvent) (latencies : List Int) (er : ℚ)
    (h5 : 5 ≤ events.length)
    (hl : optionMapAll (fun e => e.latency_ms) events = some latencies) :
    detectAnomalies events (some er) none =
      .ok ((if LatencySpike latencies then [latencySpikeMsg] else []) ++
           (if er > MAX_ERROR_RATE then [highErrorRateMsg] else [])) ∧
    (LatencySpike latencies ↔
      ((listMax latencies : ℝ) > ((listMean latencies : ℚ) : ℝ) +
        3 * Real.sqrt ((listVar latencies : ℚ) : ℝ))) := by
  have hne : latencies ≠ [] := by
    have hlen := optionMapAll_length hl
    intro hempty
    rw [hempty] at hlen
    simp at hlen
    omega
  constructor
  · have h5m : ¬ events.length < MIN_EVENTS_FOR_ANALYSIS := by
      unfold MIN_EVENTS_FOR_ANALYSIS
      omega
    unfold detectAnomalies
    rw [if_neg h5m, hl]
    simp
  · exact latencySpike_iff_sqrt latencies hne

theorem detect_threshold_signals_witness :
    (detectAnomalies [sampleEvent 0 100 false, sampleEvent 1 100 false, sampleEvent 2 100 false,
        sampleEvent 3 100 false, sampleEvent 4 1000 false] (some (3 / 10)) none =
      .ok ((if LatencySpike [100, 100, 100, 100, 1000] then [latencySpikeMsg] else []) ++
           (if (3 / 10 : ℚ) > MAX_ERROR_RATE then [highErrorRateMsg] else []))) ∧
    (LatencySpike [100, 100, 100, 100, 1000] ↔
      ((listMax [100, 100, 100, 100, 1000] : ℝ) >
        ((listMean [100, 100, 100, 100, 1000] : ℚ) : ℝ) +
        3 * Real.sqrt ((listVar [100, 100, 100, 100, 1000] : ℚ) : ℝ))) :=
  detect_threshold_signals
    [sampleEvent 0 100 false, sampleEvent 1 100 false, sampleEvent 2 100 false,
      sampleEvent 3 100 false, sampleEvent 4 1000 false]
    [100, 100, 100, 100, 1000] (3 / 10) (by decide) (by decide)

/-- C6 (counterexample): on an unexpected non-structural failure the degraded
entry's fixed text is "ERROR: Anomaly detection failed" (capital A, as written
in `anomalies.py`), not the text "ERROR: anomaly detection failed" stated by
the claim. -/
theorem detect_degraded_text_counterexample :
    detectAnomalies [sampleEvent 0 100 false, sampleEvent 1 100 false, sampleEvent 2 100 false,
        sampleEvent 3 100 false, sampleEvent 4 100 false] none (some 0) =
      .ok ["ERROR: Anomaly detection failed"] ∧
      "ERROR: anomaly detection failed" ∉ ["ERROR: Anomaly detection failed"] := by
  constructor
  · with_unfolding_all decide
  · decide

/-- C6 (amended): for every unexpected, non-structural failure occurring
during anomaly computation (injected at region `k`, after the
malformed-structure case is excluded by the successful latency extraction),
the detector does not propagate the failure: it returns the signals already
determined before the fault (none when the statistics region faults, the
latency-spike decision when the error-rate region faults) plus exactly one
synthetic entry with the fixed text "ERROR: Anomaly detection failed". -/
theorem detect_degraded_result (events : List LogEvent) (latencies : List Int)
    (er : Option ℚ) (k : Nat) (h5 : 5 ≤ events.length)
    (hl : optionMapAll (fun e => e.latency_ms) events = some latencies) (hk : k < 2) :
    detectAnomalies events er (some k) =
      .ok ((if k = 0 then []
            else if LatencySpike latencies then [latencySpikeMsg] else []) ++
           [detectionFailedMsg]) := by
  have h5m : ¬ events.length < MIN_EVENTS_FOR_ANALYSIS := by
    unfold MIN_EVENTS_FOR_ANALYSIS
    omega
  unfold detectAnomalies
  rw [if_neg h5m, hl]
  interval_cases k
  · simp
  · simp

theorem detect_degraded_result_witness :
    detectAnomalies [sampleEvent 0 100 false, sampleEvent 1 100 false, sampleEvent 2 100 false,
        sampleEvent 3 100 false, sampleEvent 4 1000 false] (some (3 / 10)) (some 1) =
      .ok ((if (1 : Nat) = 0 then []
            else if LatencySpike [100, 100, 100, 100, 1000] then [latencySpikeMsg] else []) ++
           [detectionFailedMsg]) :=
  detect_degraded_result
    [sampleEvent 0 100 false, sampleEvent 1 100 false, sampleEvent 2 100 false,
      sampleEvent 3 100 false, sampleEvent 4 1000 false]
    [100, 100, 100, 100, 1000] (some (3 / 10)) 1 (by decide) (by decide) (by decide)

/-- C10: for every list of events, every metrics value and every fault
behaviour, a list returned by the detector has at most 2 entries, every entry
is one of the three fixed strings (the CRITICAL latency-spike message, the
WARNING high-error-rate message, or the synthetic detection-failure message),
and the degraded entry is never accompanied by both threshold signals. -/
theorem detect_output_invariant (events : List LogEvent) (er : Option ℚ) (fault : Option Nat)
    (l : List String) (h : detectAnomalies events er fault = .ok l) :
    l.length ≤ 2 ∧
      (∀ s ∈ l, s = latencySpikeMsg ∨ s = highErrorRateMsg ∨ s = detectionFailedMsg) ∧
      (detectionFailedMsg ∈ l → ¬(latencySpikeMsg ∈ l ∧ highErrorRateMsg ∈ l)) := by
  simp only [detectAnomalies] at h
  split at h
  · simp only [Except.ok.injEq] at h
    subst h
    decide
  · split at h
    · simp at h
    · split at h
      · simp only [Except.ok.injEq] at h
        subst h
        decide
      · split at h
        all_goals split at h
        all_goals simp only [Except.ok.injEq] at h
        all_goals subst h
        all_goals first
          | decide
          | (split
             all_goals decide)

theorem detect_output_invariant_witness :
    ([] : List String).length ≤ 2 ∧
      (∀ s ∈ ([] : List String),
        s = latencySpikeMsg ∨ s = highErrorRateMsg ∨ s = detectionFailedMsg) ∧
      (detectionFailedMsg ∈ ([] : List String) →
        ¬(latencySpikeMsg ∈ ([] : List String) ∧ highErrorRateMsg ∈ ([] : List String))) :=
  detect_output_invariant [] none none [] (by decide)

/-- C7 (counterexample): a list containing a structurally malformed event
(missing the `latency_ms` attribute) but with fewer than 5 elements makes the
detector return the empty list through its minimum-sample guard — it does not
fail with `ValidationError` as the claim requires of every malformed list. -/
theorem detect_malformed_short_counterexample :
    malformedEvent.latency_ms = none ∧
      detectAnomalies [malformedEvent] none none = .ok [] :=
  ⟨rfl, rfl⟩

/-- C7 (amended): for every list of events containing at least one event
missing the `latency_ms` attribute (the attribute read by both computations),
the aggregator — reached with its guards passed, that is a positive window —
fails with `ValidationError` and returns no partial result, and the detector
likewise fails with `ValidationError` provided the list has at least 5 events
(with fewer events its minimum-sample guard returns the empty list before any
attribute is read); no malformed event is silently skipped and no degraded
result is produced. -/
theorem malformed_event_rejection (events : List LogEvent) (w : Int)
    (hw : 0 < w) (hmal : ∃ e ∈ events, e.latency_ms = none) :
    computeMetrics events w = .error (.valueError "Invalid log event structure") ∧
      (5 ≤ events.length → ∀ er fault,
        detectAnomalies events er fault =
          .error (.valueError "Invalid log event structure")) := by
  obtain ⟨e0, he0, hn0⟩ := hmal
  have hmapm : optionMapAll (fun e => e.latency_ms) events = none := by
    cases hm : optionMapAll (fun e => e.latency_ms) events with
    | none => rfl
    | some ls => exact absurd hn0 (optionMapAll_mem_ne_none hm e0 he0)
  refine ⟨?_, ?_⟩
  · have hne : events ≠ [] := by
      rintro rfl
      simp at he0
    unfold computeMetrics
    rw [if_neg hne, if_neg (not_le.mpr hw), hmapm]
  · intro h5 er fault
    have h5m : ¬ events.length < MIN_EVENTS_FOR_ANALYSIS := by
      unfold MIN_EVENTS_FOR_ANALYSIS
      omega
    unfold detectAnomalies
    rw [if_neg h5m, hmapm]

theorem malformed_event_rejection_witness :
    computeMetrics [malformedEvent, sampleEvent 1 100 false, sampleEvent 2 100 false,
        sampleEvent 3 100 false, sampleEvent 4 100 false] 2 =
      .error (.valueError "Invalid log event structure") ∧
      (5 ≤ ([malformedEvent, sampleEvent 1 100 false, sampleEvent 2 100 false,
        sampleEvent 3 100 false, sampleEvent 4 100 false] : List LogEvent).length →
        ∀ er fault,
          detectAnomalies [malformedEvent, sampleEvent 1 100 false, sampleEvent 2 100 false,
              sampleEvent 3 100 false, sampleEvent 4 100 false] er fault =
            .error (.valueError "Invalid log event structure")) :=
  malformed_event_rejection
    [malformedEvent, sampleEvent 1 100 false, sampleEvent 2 100 false,
      sampleEvent 3 100 false, sampleEvent 4 100 false] 2 (by decide) (by decide)

lemma listMean_singleton (x : Int) : listMean [x] = (x : ℚ) := by
  unfold listMean
  norm_num

lemma percentile_singleton (p : ℚ) (x : Int) : percentile p [x] = (x : ℚ) := by
  unfold percentile
  simp [List.insertionSort, List.orderedInsert]

lemma fdiv_eq_floor (a b : Int) (hb : 0 < b) : Int.fdiv a b = ⌊(a : ℚ) / (b : ℚ)⌋ := by
  obtain ⟨n, rfl⟩ : ∃ n : ℕ, b = (n : ℤ) := ⟨b.toNat, (Int.toNat_of_nonneg (le_of_lt hb)).symm⟩
  rw [Int.fdiv_eq_ediv a (by positivity)]
  rw [show ((n : ℤ) : ℚ) = (n : ℚ) by push_cast; ring]
  exact (Rat.floor_intCast_div_natCast a n).symm

/-- C9: for every single-event input with all attributes present,
`latency_ms = L`, `tokens_used = T`, `is_error = b`, and positive window
duration `W` minutes, the aggregator returns
`avg = p50 = p95 = p99 = L`, an error rate of 1 when `b` and 0 otherwise,
`requests_per_min = floor(1 / W)` and `tokens_per_min = floor(T / W)`. -/
theorem compute_single_event (e : LogEvent) (L T : Int) (b : Bool) (u : String) (W : Int)
    (hL : e.latency_ms = some L) (hT : e.tokens_used = some T)
    (hb : e.is_error = some b) (hu : e.user_id = some u) (hW : 0 < W) :
    (metricsOf (computeMetrics [e] W)).map (fun m => m.avg_latency) = some (L : ℚ) ∧
    (metricsOf (computeMetrics [e] W)).map (fun m => m.p50_latency) = some (L : ℚ) ∧
    (metricsOf (computeMetrics [e] W)).map (fun m => m.p95_latency) = some (L : ℚ) ∧
    (metricsOf (computeMetrics [e] W)).map (fun m => m.p99_latency) = some (L : ℚ) ∧
    (metricsOf (computeMetrics [e] W)).map (fun m => m.error_rate) =
      some (if b then 1 else 0) ∧
    (metricsOf (computeMetrics [e] W)).map (fun m => m.requests_per_min) =
      some ⌊(1 : ℚ) / (W : ℚ)⌋ ∧
    (metricsOf (computeMetrics [e] W)).map (fun m => m.tokens_per_min) =
      some ⌊(T : ℚ) / (W : ℚ)⌋ := by
  have hcm : computeMetrics [e] W =
      .ok (some
        ⟨Int.fdiv (([e].length : ℕ) : Int) W,
         listMean [L],
         percentile 50 [L],
         percentile 95 [L],
         percentile 99 [L],
         ((([b].countP id : ℕ)) : ℚ) / (([e].length : ℕ) : ℚ),
         Int.fdiv [T].sum W,
         (([T].sum : Int) : ℚ) / 1000 * TOKEN_COST_PER_1K,
         fun x => [u].count x⟩) := by
    unfold computeMetrics
    rw [if_neg (by simp), if_neg (not_le.mpr hW)]
    rw [show optionMapAll (fun e2 => e2.latency_ms) [e] = some [L] by
      simp [optionMapAll, hL]]
    rw [show optionMapAll (fun e2 => e2.is_error) [e] = some [b] by
      simp [optionMapAll, hb]]
    rw [show optionMapAll (fun e2 => e2.tokens_used) [e] = some [T] by
      simp [optionMapAll, hT]]
    rw [show optionMapAll (fun e2 => e2.user_id) [e] = some [u] by
      simp [optionMapAll, hu]]
  rw [hcm]
  unfold metricsOf
  simp only [Option.map_some']
  refine ⟨?_, ?_, ?_, ?_, ?_, ?_, ?_⟩
  · simp [listMean_singleton]
  · simp [percentile_singleton]
  · simp [percentile_singleton]
  · simp [percentile_singleton]
  · simp only [Option.some.injEq]
    cases b <;> simp [List.countP, List.countP.go]
  · simp only [Option.some.injEq, List.length_singleton]
    rw [show (((1 : ℕ) : ℤ)) = (1 : ℤ) by norm_num]
    rw [fdiv_eq_floor 1 W hW]
    norm_num
  · simp only [Option.some.injEq, List.sum_singleton]
    exact fdiv_eq_floor T W hW

theorem compute_single_event_witness :
    (metricsOf (computeMetrics [sampleEvent 3 9 true] 2)).map (fun m => m.avg_latency) =
      some ((9 : Int) : ℚ) ∧
    (metricsOf (computeMetrics [sampleEvent 3 9 true] 2)).map (fun m => m.p50_latency) =
      some ((9 : Int) : ℚ) ∧
    (metricsOf (computeMetrics [sampleEvent 3 9 true] 2)).map (fun m => m.p95_latency) =
      some ((9 : Int) : ℚ) ∧
    (metricsOf (computeMetrics [sampleEvent 3 9 true] 2)).map (fun m => m.p99_latency) =
      some ((9 : Int) : ℚ) ∧
    (metricsOf (computeMetrics [sampleEvent 3 9 true] 2)).map (fun m => m.error_rate) =
      some (if true then 1 else 0) ∧
    (metricsOf (computeMetrics [sampleEvent 3 9 true] 2)).map (fun m => m.requests_per_min) =
      some ⌊(1 : ℚ) / ((2 : Int) : ℚ)⌋ ∧
    (metricsOf (computeMetrics [sampleEvent 3 9 true] 2)).map (fun m => m.tokens_per_min) =
      some ⌊((7 : Int) : ℚ) / ((2 : Int) : ℚ)⌋ :=
  compute_single_event (sampleEvent 3 9 true) 9 7 true "u" 2 rfl rfl rfl rfl (by decide)
